import Mathlib

/-!
Verification development for the fluid-pressure boundary-conditions plugin
mechanism of ASPECT, as declared in
`src/include/aspect/fluid_pressure_boundary_conditions/interface.h`.

The header declares a dimension-parameterized capability contract
(`Interface<dim>`) together with a per-dimensionality plugin registry
(`register_fluid_pressure_boundary`, `create_fluid_pressure_boundary`,
`declare_parameters`) and a registration macro
(`ASPECT_REGISTER_FLUID_PRESSURE_BOUNDARY_CONDITIONS`).  The header contains
only declarations and documentation; the registry bodies live in a translation
unit that is not part of the source tree given here, so those operations are
modelled from the specification (each such definition says so in its doc
comment).  Collaborator types (`ParameterHandler`, the material-model
input/output batches, `Tensor<1,dim>`) are opaque externals per the spec and
are modelled just concretely enough to state the claims.
-/

/-- One declared configuration option: its name, default value, and (for
selection-style options) the list of admissible values (`none` = any value
admissible).  Models the information `ParameterHandler::declare_entry`
records. -/
structure DeclaredOption where
  oname : String
  odefault : String
  allowed : Option (List String)
deriving DecidableEq

/-- Modelled from the spec: the configuration store collaborator ("an opaque
key/value store"), supporting declaring an option and reading a value by name.
`declared` is the schema built during the declaration phase; `values` are the
values supplied by the user's input file. -/
structure ParameterHandler where
  declared : List DeclaredOption
  values : List (String × String)
deriving DecidableEq

/-- Modelled from the spec: reading a parameter value: a value supplied in the
store wins, otherwise the declared default, otherwise the empty string. -/
def ParameterHandler.get (prm : ParameterHandler) (k : String) : String :=
  match prm.values.lookup k with
  | some v => v
  | none =>
    match prm.declared.find? (fun o => o.oname == k) with
    | some o => o.odefault
    | none => ""

/-- Declaring a batch of options appends them to the store's schema (the
store is otherwise unchanged; in particular supplied values are untouched). -/
def declareOptions (ds : List DeclaredOption) (prm : ParameterHandler) :
    ParameterHandler :=
  { prm with declared := prm.declared ++ ds }

/-- `types::boundary_id` : an opaque integer tag naming a boundary segment. -/
abbrev BoundaryId := Nat

/-- Per-point entry of `MaterialModel::MaterialModelInputs<dim>` — opaque
material-property input, external collaborator per the spec. -/
abbrev MaterialInput (_dim : Nat) := Int

/-- Per-point entry of `MaterialModel::MaterialModelOutputs<dim>` — opaque
material-property output (density-like quantities), external collaborator. -/
abbrev MaterialOutput (_dim : Nat) := Int

/-- `Tensor<1,dim>` : a rank-1 tensor (directional gradient value), modelled
as its list of components. -/
abbrev Tensor1 (_dim : Nat) := List Int

/-- A concrete algorithm-variant class implementing the capability contract
`Interface<dim>`.  A class supplies:
  * `cname` — the C++ class identity;
  * `declares` — the options its static `declare_parameters` declares
    (default: none, per interface.h lines 86-94);
  * `parse_fn` — `some f` when the class overrides `parse_parameters`
    (reading its declared options from the store into instance state),
    `none` when it inherits the default, which reads nothing
    (interface.h lines 96-104);
  * `gradient_point` — the per-evaluation-point gradient computation.  This
    field is mandatory, mirroring that `fluid_pressure_gradient` is pure
    virtual (interface.h line 84) and has no default implementation. -/
structure VariantClass (dim : Nat) where
  cname : String
  declares : List DeclaredOption
  parse_fn : Option (ParameterHandler → List (String × String))
  gradient_point : BoundaryId → MaterialInput dim → MaterialOutput dim → Tensor1 dim

/-- A class whose author omitted the `declare_parameters` and
`parse_parameters` overrides (and any `initialize` override), supplying only
the mandatory gradient computation: the defaults of the base class apply. -/
def VariantClass.defaulted (dim : Nat) (cname : String)
    (g : BoundaryId → MaterialInput dim → MaterialOutput dim → Tensor1 dim) :
    VariantClass dim :=
  { cname := cname, declares := [], parse_fn := none, gradient_point := g }

/-- A live instance of an algorithm variant: its class, the instance state
produced by parsing runtime parameters (empty on a default-constructed
instance), and whether `initialize` has been run (the lifecycle marker). -/
structure Instance (dim : Nat) where
  cls : VariantClass dim
  param_state : List (String × String)
  init_done : Bool

/-- `Interface<dim>::parse_parameters` (virtual, interface.h lines 96-104):
a class that overrides it reads its declared options from the
already-populated store into instance state; the default implementation
reads no parameters and leaves the instance unchanged. -/
def Instance.parse_parameters (inst : Instance dim) (prm : ParameterHandler) :
    Instance dim :=
  match inst.cls.parse_fn with
  | none => inst
  | some f => { inst with param_state := f prm }

/-- Writing computed values entry-by-entry into the caller-provided result
sequence: slot `i` receives value `i`; the sequence is never resized, so
slots beyond the supplied values keep their old content and surplus values
are not appended. -/
def writeResults : List α → List α → List α
  | _, [] => []
  | [], r :: rs => r :: rs
  | v :: vs, _ :: rs => v :: writeResults vs rs

/-- `Interface<dim>::fluid_pressure_gradient` (interface.h lines 78-84):
declared `const` on the instance, hence modelled as returning the instance
component unchanged alongside the filled result sequence.  Modelled from the
spec for the batch semantics: "one directional gradient value per evaluation
point, written into a caller-provided, pre-sized mutable sequence (same
length as the input batch; order corresponds one-to-one to input order)";
the per-point computation is the variant's `gradient_point`. -/
def Instance.fluid_pressure_gradient (inst : Instance dim) (bid : BoundaryId)
    (ins : List (MaterialInput dim)) (outs : List (MaterialOutput dim))
    (result : List (Tensor1 dim)) : Instance dim × List (Tensor1 dim) :=
  (inst, writeResults (List.zipWith (inst.cls.gradient_point bid) ins outs) result)

/-- One catalog entry of the per-dimensionality plugin registry: name,
description, and the registered class (standing for the pair of function
pointers `declare_parameters_function` / `factory_function` the C++ entry
stores, both of which the macro derives from the class). -/
structure Entry (dim : Nat) where
  name : String
  description : String
  cls : VariantClass dim

/-- The entry's `factory_function`: default-constructs a fresh instance of
the registered class (`new classname<dim>()` in `RegisterHelper`): no
parameters read yet, not yet initialized. -/
def Entry.factory (e : Entry dim) : Instance dim :=
  { cls := e.cls, param_state := [], init_done := false }

/-- The per-dimensionality catalog (`PluginList` state), in registration
order. -/
abbrev Registry (dim : Nat) := List (Entry dim)

/-- Modelled from the spec: `register_fluid_pressure_boundary<dim>`
(declared interface.h lines 123-128; body in the registry translation unit,
absent from this tree).  Inserts a new catalog entry; registering a name
already present for that dimensionality is an error ("attempting to register
a duplicate name is a programming error to be caught"), diagnosed with the
conflicting identifier, and the catalog is not changed. -/
def register_fluid_pressure_boundary (name description : String)
    (c : VariantClass dim) (reg : Registry dim) :
    Except String (Registry dim) :=
  if reg.any (fun e => e.name == name) then
    .error ("duplicate plugin name <" ++ name ++ ">")
  else
    .ok (reg ++ [{ name := name, description := description, cls := c }])

/-- The failure mode of `create_fluid_pressure_boundary`: the configured
selector names no registered variant.  The error carries the offending name
and the list of valid (registered) names, modelling the user-visible
"unknown model name" diagnostic. -/
inductive CreateError where
  | unknownName (offending : String) (valid : List String)
deriving DecidableEq

/-- Modelled from the spec: `create_fluid_pressure_boundary<dim>` (declared
interface.h lines 140-142; body absent from this tree).  Reads the selector
option ("Model name") from the store and looks it up in the catalog; if
absent, fails with an unknown-name error listing valid choices; otherwise
invokes that entry's factory and returns the fresh instance to the caller
(ownership transferred; per the header documentation, interface.h lines
130-137, the returned object "is not yet initialized and has not read its
runtime parameters yet" — `create` calls neither `parse_parameters` nor
`initialize`). -/
def create_fluid_pressure_boundary (reg : Registry dim)
    (prm : ParameterHandler) : Except CreateError (Instance dim) :=
  let model_name := ParameterHandler.get prm "Model name"
  match reg.find? (fun e => e.name == model_name) with
  | some e => .ok (Entry.factory e)
  | none => .error (.unknownName model_name (reg.map Entry.name))

/-- The registry's own selector option: "the name of the variant to use,
enumerated against exactly the registered names". -/
def selectorOption (reg : Registry dim) : DeclaredOption :=
  { oname := "Model name", odefault := "", allowed := some (reg.map Entry.name) }

/-- The concatenation, in registration order, of the options every
registered entry's `declare_parameters_function` declares. -/
def allVariantDeclares : Registry dim → List DeclaredOption
  | [] => []
  | e :: r => e.cls.declares ++ allVariantDeclares r

/-- Modelled from the spec: the registry-level `declare_parameters<dim>`
(declared interface.h lines 151-153; body absent from this tree).  Declares
the registry's own selector option and "iterates every registered entry for
the dimensionality and invokes each entry's `declare_fn(config)`" —
unconditionally, before the user's chosen variant is known. -/
def declare_parameters (reg : Registry dim) (prm : ParameterHandler) :
    ParameterHandler :=
  reg.foldl (fun p e => declareOptions e.cls.declares p)
    (declareOptions [selectorOption reg] prm)

/-- The pair of per-dimensionality catalogs the registration machinery
maintains (`PluginList<Interface<2>>` and `PluginList<Interface<3>>`): the
macro supports exactly the dimensionalities 2 and 3, so this is the whole
registration state. -/
structure Catalogs where
  reg2 : Registry 2
  reg3 : Registry 3

/-- `ASPECT_REGISTER_FLUID_PRESSURE_BOUNDARY_CONDITIONS(classname, name,
description)` (interface.h lines 163-174): instantiates `classname<2>` and
`classname<3>` and creates two `RegisterHelper` objects, one calling
`register_fluid_pressure_boundary<2>` and one calling
`register_fluid_pressure_boundary<3>`, both with the same `name` and
`description`.  `c2` and `c3` stand for the two dimension-instantiations of
`classname`. -/
def ASPECT_REGISTER_FLUID_PRESSURE_BOUNDARY_CONDITIONS
    (c2 : VariantClass 2) (c3 : VariantClass 3) (name description : String)
    (s : Catalogs) : Except String Catalogs :=
  match register_fluid_pressure_boundary name description c2 s.reg2 with
  | .error msg => .error msg
  | .ok r2 =>
    match register_fluid_pressure_boundary name description c3 s.reg3 with
    | .error msg => .error msg
    | .ok r3 => .ok { reg2 := r2, reg3 := r3 }

/-- A method declaration of the C++ base class, as written in the header:
name, whether it is virtual, pure virtual (` = 0`), static, and
const-qualified. -/
structure MethodDecl where
  mname : String
  isVirtual : Bool
  isPureVirtual : Bool
  isStatic : Bool
  isConst : Bool
deriving DecidableEq

/-- The method table of `Interface<dim>` transcribed from interface.h lines
46-105: a virtual destructor (line 54), virtual `initialize` (line 61), pure
virtual const `fluid_pressure_gradient` (lines 78-84), static
`declare_parameters` (lines 92-94), and virtual `parse_parameters` (lines
102-104). -/
def interfaceMethods : List MethodDecl :=
  [ { mname := "~Interface", isVirtual := true, isPureVirtual := false,
      isStatic := false, isConst := false },
    { mname := "initialize", isVirtual := true, isPureVirtual := false,
      isStatic := false, isConst := false },
    { mname := "fluid_pressure_gradient", isVirtual := true,
      isPureVirtual := true, isStatic := false, isConst := true },
    { mname := "declare_parameters", isVirtual := false,
      isPureVirtual := false, isStatic := true, isConst := false },
    { mname := "parse_parameters", isVirtual := true, isPureVirtual := false,
      isStatic := false, isConst := false } ]

/-- A C++ class is abstract (cannot be instantiated) iff it has a pure
virtual member function. -/
def isAbstractClass (ms : List MethodDecl) : Bool :=
  ms.any (fun m => m.isPureVirtual)

/-! ## Helper lemmas -/

theorem writeResults_length (vs rs : List α) :
    (writeResults vs rs).length = rs.length := by
  induction vs generalizing rs with
  | nil => cases rs <;> simp [writeResults]
  | cons v vs ih => cases rs <;> simp [writeResults, ih]

theorem writeResults_eq_of_length_eq (vs rs : List α)
    (h : vs.length = rs.length) : writeResults vs rs = vs := by
  induction vs generalizing rs with
  | nil =>
    cases rs with
    | nil => rfl
    | cons r rs => simp at h
  | cons v vs ih =>
    cases rs with
    | nil => simp at h
    | cons r rs =>
      have h' : vs.length = rs.length := by simpa using h
      simp [writeResults, ih rs h']

theorem zipWith_getElem?_eq (f : α → β → γ) :
    ∀ (l1 : List α) (l2 : List β) (i : Nat) (a : α) (b : β),
      l1[i]? = some a → l2[i]? = some b →
      (List.zipWith f l1 l2)[i]? = some (f a b) := by
  intro l1
  induction l1 with
  | nil => intro l2 i a b h1 _; simp at h1
  | cons x xs ih =>
    intro l2 i a b h1 h2
    cases l2 with
    | nil => simp at h2
    | cons y ys =>
      cases i with
      | zero =>
        simp only [List.getElem?_cons_zero, Option.some.injEq] at h1 h2
        simp [List.zipWith, h1, h2]
      | succ n =>
        simp only [List.getElem?_cons_succ] at h1 h2
        simpa [List.zipWith] using ih ys n a b h1 h2

theorem foldl_declareOptions_declared (reg : Registry dim) :
    ∀ p0 : ParameterHandler,
      (reg.foldl (fun p e => declareOptions e.cls.declares p) p0).declared
        = p0.declared ++ allVariantDeclares reg := by
  induction reg with
  | nil => intro p0; simp [allVariantDeclares]
  | cons e r ih =>
    intro p0
    rw [List.foldl_cons, ih]
    simp [declareOptions, allVariantDeclares, List.append_assoc]

/-! ## Sample variants used by witnesses -/

/-- A sample per-point gradient computation: density scaled by a downward
gravity direction. -/
def gravityGradient (dim : Nat) :
    BoundaryId → MaterialInput dim → MaterialOutput dim → Tensor1 dim :=
  fun _ _ density => [0, -density]

/-- A sample variant class (dimensionality 2) that declares and parses one
option. -/
def densityClass2 : VariantClass 2 :=
  { cname := "FluidPressureDensity",
    declares := [{ oname := "Density formula", odefault := "fluid density",
                   allowed := some ["fluid density", "solid density"] }],
    parse_fn := some (fun prm =>
      [("Density formula", ParameterHandler.get prm "Density formula")]),
    gradient_point := gravityGradient 2 }

/-- The dimensionality-3 instantiation of the same sample variant class. -/
def densityClass3 : VariantClass 3 :=
  { cname := "FluidPressureDensity",
    declares := [{ oname := "Density formula", odefault := "fluid density",
                   allowed := some ["fluid density", "solid density"] }],
    parse_fn := some (fun prm =>
      [("Density formula", ParameterHandler.get prm "Density formula")]),
    gradient_point := gravityGradient 3 }

/-- A sample variant class that overrides none of the optional operations. -/
def plainClass2 : VariantClass 2 :=
  VariantClass.defaulted 2 "PlainVariant" (gravityGradient 2)

/-! ## Claim theorems -/

/-- C10: `fluid_pressure_gradient` has no default implementation in the base
`Interface` — it is the only pure virtual member (interface.h line 84), so
the base class is abstract (cannot be instantiated or registered as a
variant) and every concrete variant must supply its own gradient
computation (in the embedding, `VariantClass.gradient_point` is a mandatory
field), whereas `initialize`, `declare_parameters` and `parse_parameters`
are not pure virtual (they have defaults). -/
theorem claim_C10_gradient_is_pure_virtual :
    (interfaceMethods.find?
        (fun m => m.mname == "fluid_pressure_gradient")).map
        MethodDecl.isPureVirtual = some true
    ∧ (interfaceMethods.find? (fun m => m.mname == "initialize")).map
        MethodDecl.isPureVirtual = some false
    ∧ (interfaceMethods.find? (fun m => m.mname == "declare_parameters")).map
        MethodDecl.isPureVirtual = some false
    ∧ (interfaceMethods.find? (fun m => m.mname == "parse_parameters")).map
        MethodDecl.isPureVirtual = some false
    ∧ isAbstractClass interfaceMethods = true := by
  refine ⟨rfl, rfl, rfl, rfl, rfl⟩

/-- C8: `fluid_pressure_gradient` is declared `const` on the instance
(interface.h line 84), and correspondingly evaluation leaves the instance's
observable state unchanged in the embedding, so repeated invocations with
the same boundary identifier and batches see the same instance state and
produce the same result. -/
theorem claim_C8_gradient_is_const_on_instance (dim : Nat)
    (inst : Instance dim) (bid : BoundaryId)
    (ins : List (MaterialInput dim)) (outs : List (MaterialOutput dim))
    (result : List (Tensor1 dim)) :
    (Instance.fluid_pressure_gradient inst bid ins outs result).1 = inst
    ∧ Instance.fluid_pressure_gradient
        (Instance.fluid_pressure_gradient inst bid ins outs result).1
        bid ins outs result
      = Instance.fluid_pressure_gradient inst bid ins outs result
    ∧ (interfaceMethods.find?
        (fun m => m.mname == "fluid_pressure_gradient")).map
        MethodDecl.isConst = some true :=
  ⟨rfl, rfl, rfl⟩

/-- C4: for every dimensionality, catalog state and store, the registry-level
`declare_parameters` adds to the schema the registry's own selector option
("Model name", whose admissible values are exactly the registered names)
followed by the options of every registered entry's declare-parameters
function, in registration order — each entry is processed unconditionally,
whichever variant is later selected. -/
theorem claim_C4_declare_all_parameters (dim : Nat) (reg : Registry dim)
    (prm : ParameterHandler) :
    (declare_parameters reg prm).declared
      = prm.declared ++ selectorOption reg :: allVariantDeclares reg
    ∧ selectorOption reg ∈ (declare_parameters reg prm).declared
    ∧ (selectorOption reg).allowed = some (reg.map Entry.name) := by
  have h : (declare_parameters reg prm).declared
      = prm.declared ++ selectorOption reg :: allVariantDeclares reg := by
    unfold declare_parameters
    rw [foldl_declareOptions_declared]
    simp [declareOptions]
  refine ⟨h, ?_, rfl⟩
  rw [h]
  simp

/-- C5: for every instance and every batch of length `N` (including `N = 0`
and arbitrarily large `N`), `fluid_pressure_gradient` fills exactly `N`
entries of the caller-provided result sequence, entry `i` being computed
from input point `i` (same order as the inputs), and never resizes the
result sequence (its length always equals the caller-provided length, which
equals the evaluation-point count). -/
theorem claim_C5_gradient_writes_exactly_N (dim : Nat) (inst : Instance dim)
    (bid : BoundaryId) (ins : List (MaterialInput dim))
    (outs : List (MaterialOutput dim)) (result : List (Tensor1 dim)) (N : Nat)
    (hin : ins.length = N) (hout : outs.length = N)
    (hres : result.length = N) :
    ((Instance.fluid_pressure_gradient inst bid ins outs result).2).length = N
    ∧ ((Instance.fluid_pressure_gradient inst bid ins outs result).2).length
        = result.length
    ∧ (∀ (i : Nat) (a : MaterialInput dim) (b : MaterialOutput dim),
        ins[i]? = some a → outs[i]? = some b →
        ((Instance.fluid_pressure_gradient inst bid ins outs result).2)[i]?
          = some (inst.cls.gradient_point bid a b)) := by
  have hz : (List.zipWith (inst.cls.gradient_point bid) ins outs).length
      = result.length := by
    simp [List.length_zipWith, hin, hout, hres]
  have hw : (Instance.fluid_pressure_gradient inst bid ins outs result).2
      = List.zipWith (inst.cls.gradient_point bid) ins outs := by
    simpa [Instance.fluid_pressure_gradient] using
      writeResults_eq_of_length_eq _ result hz
  refine ⟨?_, ?_, ?_⟩
  · rw [hw]; simp [List.length_zipWith, hin, hout]
  · rw [hw, hz]
  · intro i a b ha hb
    rw [hw]
    exact zipWith_getElem?_eq _ ins outs i a b ha hb

/-- Concrete batch data used by the witness of C5. -/
def w5inst : Instance 2 :=
  Entry.factory { name := "density", description := "", cls := densityClass2 }

/-- Witness for C5 at a concrete 3-point batch. -/
theorem claim_C5_gradient_writes_exactly_N_witness :
    (([(1 : Int), 2, 3].length = 3) ∧ ([(10 : Int), 20, 30].length = 3)
      ∧ (([[], [], []] : List (Tensor1 2)).length = 3))
    ∧ (((Instance.fluid_pressure_gradient w5inst 0 [1, 2, 3] [10, 20, 30]
          [[], [], []]).2).length = 3
      ∧ ((Instance.fluid_pressure_gradient w5inst 0 [1, 2, 3] [10, 20, 30]
          [[], [], []]).2).length = ([[], [], []] : List (Tensor1 2)).length
      ∧ (∀ (i : Nat) (a : MaterialInput 2) (b : MaterialOutput 2),
          ([(1 : Int), 2, 3])[i]? = some a →
          ([(10 : Int), 20, 30])[i]? = some b →
          ((Instance.fluid_pressure_gradient w5inst 0 [1, 2, 3] [10, 20, 30]
            [[], [], []]).2)[i]? = some (w5inst.cls.gradient_point 0 a b))) :=
  ⟨⟨rfl, rfl, rfl⟩,
    claim_C5_gradient_writes_exactly_N 2 w5inst 0 [1, 2, 3] [10, 20, 30]
      [[], [], []] 3 rfl rfl rfl⟩

/-- A successful registration appends exactly one entry for the given name,
description and class at the end of the catalog. -/
theorem register_ok_eq (name descr : String) (c : VariantClass dim)
    (reg r : Registry dim)
    (h : register_fluid_pressure_boundary name descr c reg = .ok r) :
    r = reg ++ [{ name := name, description := descr, cls := c }] := by
  unfold register_fluid_pressure_boundary at h
  split at h
  · cases h
  · injection h with h
    exact h.symm

/-- C1: when the configured selector ("Model name") matches no registered
entry, `create_fluid_pressure_boundary` fails with an error carrying the
offending name and the full list of registered valid names (nonempty when
the catalog is), and it never returns an instance. -/
theorem claim_C1_unknown_selection_fails (dim : Nat) (reg : Registry dim)
    (prm : ParameterHandler)
    (hunknown : ∀ e ∈ reg, e.name ≠ ParameterHandler.get prm "Model name")
    (hne : reg ≠ []) :
    create_fluid_pressure_boundary reg prm
      = .error (.unknownName (ParameterHandler.get prm "Model name")
          (reg.map Entry.name))
    ∧ reg.map Entry.name ≠ []
    ∧ ∀ inst, create_fluid_pressure_boundary reg prm ≠ .ok inst := by
  have hfind : reg.find?
      (fun e => e.name == ParameterHandler.get prm "Model name") = none := by
    apply List.find?_eq_none.mpr
    intro e he
    simpa using hunknown e he
  refine ⟨?_, by simpa using hne, ?_⟩
  · simp [create_fluid_pressure_boundary, hfind]
  · intro inst h
    simp [create_fluid_pressure_boundary, hfind] at h

/-- Concrete one-entry catalog used by several witnesses. -/
def w1reg : Registry 2 :=
  [{ name := "density", description := "a sample variant",
     cls := densityClass2 }]

/-- A store selecting a name registered in no catalog. -/
def w1prm : ParameterHandler :=
  { declared := [], values := [("Model name", "bogus")] }

/-- Witness for C1: selecting "bogus" against the one-entry catalog fails
with the offending name and the valid-name list. -/
theorem claim_C1_unknown_selection_fails_witness :
    ((∀ e ∈ w1reg, e.name ≠ ParameterHandler.get w1prm "Model name")
      ∧ w1reg ≠ [])
    ∧ (create_fluid_pressure_boundary w1reg w1prm
        = .error (.unknownName (ParameterHandler.get w1prm "Model name")
            (w1reg.map Entry.name))
      ∧ w1reg.map Entry.name ≠ []
      ∧ ∀ inst, create_fluid_pressure_boundary w1reg w1prm ≠ .ok inst) := by
  have hu : ∀ e ∈ w1reg, e.name ≠ ParameterHandler.get w1prm "Model name" := by
    intro e he
    simp only [w1reg, List.mem_singleton] at he
    subst he
    simp [w1prm, ParameterHandler.get, List.lookup]
  have hn : w1reg ≠ [] := by simp [w1reg]
  exact ⟨⟨hu, hn⟩, claim_C1_unknown_selection_fails 2 w1reg w1prm hu hn⟩

/-- C2: registering a name twice for the same dimensionality fails with the
duplicate diagnostic (so the existing catalog entry is never overwritten),
while registering that same name in the catalog of another dimensionality
succeeds: the per-dimensionality catalogs are independent pieces of state. -/
theorem claim_C2_duplicate_rejected_same_dim_only
    (dim dim' : Nat) (_hdim : dim ≠ dim') (name d1 d2 d3 : String)
    (c1 c1' : VariantClass dim) (c2 : VariantClass dim')
    (reg r : Registry dim) (reg' : Registry dim')
    (hfirst : register_fluid_pressure_boundary name d1 c1 reg = .ok r)
    (hfresh : ∀ e ∈ reg', e.name ≠ name) :
    register_fluid_pressure_boundary name d2 c1' r
      = .error ("duplicate plugin name <" ++ name ++ ">")
    ∧ (∀ r2, register_fluid_pressure_boundary name d2 c1' r ≠ .ok r2)
    ∧ register_fluid_pressure_boundary name d3 c2 reg'
      = .ok (reg' ++ [{ name := name, description := d3, cls := c2 }]) := by
  have hr : r = reg ++ [{ name := name, description := d1, cls := c1 }] :=
    register_ok_eq name d1 c1 reg r hfirst
  have hdup : r.any (fun e => e.name == name) = true := by
    subst hr
    simp [List.any_append]
  have hok : reg'.any (fun e => e.name == name) = false := by
    apply List.any_eq_false.mpr
    intro e he
    simpa using hfresh e he
  refine ⟨?_, ?_, ?_⟩
  · simp [register_fluid_pressure_boundary, hdup]
  · intro r2 h
    simp [register_fluid_pressure_boundary, hdup] at h
  · simp [register_fluid_pressure_boundary, hok]

/-- Witness for C2: "density" registered once under dimensionality 2;
registering it again under 2 fails, registering it under 3 succeeds. -/
theorem claim_C2_duplicate_rejected_same_dim_only_witness :
    ((2 : Nat) ≠ 3
      ∧ register_fluid_pressure_boundary "density" "a sample variant"
          densityClass2 ([] : Registry 2) = .ok w1reg
      ∧ (∀ e ∈ ([] : Registry 3), e.name ≠ "density"))
    ∧ (register_fluid_pressure_boundary "density" "again" plainClass2 w1reg
        = .error ("duplicate plugin name <" ++ "density" ++ ">")
      ∧ (∀ r2, register_fluid_pressure_boundary "density" "again" plainClass2
          w1reg ≠ .ok r2)
      ∧ register_fluid_pressure_boundary "density" "3d" densityClass3
          ([] : Registry 3)
        = .ok ([] ++ [{ name := "density", description := "3d",
                        cls := densityClass3 }])) :=
  ⟨⟨by decide, rfl, by intro e he; cases he⟩,
   claim_C2_duplicate_rejected_same_dim_only 2 3 (by decide)
     "density" "a sample variant" "again" "3d" densityClass2 plainClass2
     densityClass3 [] w1reg [] rfl (by intro e he; cases he)⟩

/-- C3: for a registered selector value, `create_fluid_pressure_boundary`
returns exactly the instance built by the matched entry's factory — a fresh
default-constructed object of that entry's class, with no runtime parameters
read (`param_state = []`) and not yet initialized (`init_done = false`);
`create` calls neither `parse_parameters` nor `initialize`, and the returned
value is handed to the caller (ownership transfer, interface.h lines
130-137). -/
theorem claim_C3_create_returns_fresh_unparsed (dim : Nat)
    (reg : Registry dim) (prm : ParameterHandler) (e : Entry dim)
    (hfind : reg.find?
        (fun x => x.name == ParameterHandler.get prm "Model name") = some e) :
    create_fluid_pressure_boundary reg prm = .ok (Entry.factory e)
    ∧ (Entry.factory e).cls = e.cls
    ∧ (Entry.factory e).param_state = []
    ∧ (Entry.factory e).init_done = false := by
  refine ⟨?_, rfl, rfl, rfl⟩
  simp [create_fluid_pressure_boundary, hfind]

/-- A store selecting the registered name "density". -/
def w3prm : ParameterHandler :=
  { declared := [], values := [("Model name", "density")] }

/-- The single entry of `w1reg`, named for use in witnesses. -/
def w3entry : Entry 2 :=
  { name := "density", description := "a sample variant",
    cls := densityClass2 }

/-- Witness for C3 at the one-entry catalog and the selector "density". -/
theorem claim_C3_create_returns_fresh_unparsed_witness :
    (w1reg.find?
        (fun x => x.name == ParameterHandler.get w3prm "Model name")
      = some w3entry)
    ∧ (create_fluid_pressure_boundary w1reg w3prm
        = .ok (Entry.factory w3entry)
      ∧ (Entry.factory w3entry).cls = w3entry.cls
      ∧ (Entry.factory w3entry).param_state = []
      ∧ (Entry.factory w3entry).init_done = false) :=
  ⟨rfl, claim_C3_create_returns_fresh_unparsed 2 w1reg w3prm w3entry rfl⟩

/-- C6: after `declare_parameters` has built the schema and `create` has
returned an instance, `parse_parameters` is idempotent with respect to the
option values present in the store: parsing a second time against the same
store yields exactly the same instance state as parsing once (a variant
either inherits the default, which reads nothing, or sets its state from the
store alone). -/
theorem claim_C6_parse_parameters_idempotent (dim : Nat) (reg : Registry dim)
    (prm0 : ParameterHandler) (inst : Instance dim)
    (_hcreate : create_fluid_pressure_boundary reg
        (declare_parameters reg prm0) = .ok inst) :
    Instance.parse_parameters
        (Instance.parse_parameters inst (declare_parameters reg prm0))
        (declare_parameters reg prm0)
      = Instance.parse_parameters inst (declare_parameters reg prm0) := by
  cases inst with
  | mk cls ps b =>
    cases hp : cls.parse_fn with
    | none => simp [Instance.parse_parameters, hp]
    | some f => simp [Instance.parse_parameters, hp]

/-- Witness for C6: the full declare-create-parse pipeline on the one-entry
catalog, parsing twice against the same store. -/
theorem claim_C6_parse_parameters_idempotent_witness :
    (create_fluid_pressure_boundary w1reg (declare_parameters w1reg w3prm)
      = .ok (Entry.factory w3entry))
    ∧ Instance.parse_parameters
        (Instance.parse_parameters (Entry.factory w3entry)
          (declare_parameters w1reg w3prm))
        (declare_parameters w1reg w3prm)
      = Instance.parse_parameters (Entry.factory w3entry)
        (declare_parameters w1reg w3prm) :=
  ⟨rfl,
   claim_C6_parse_parameters_idempotent 2 w1reg w3prm
     (Entry.factory w3entry) rfl⟩

/-- C7: the base-class defaults — `declare_parameters` declares no options
and `parse_parameters` reads no options, leaving the instance unchanged —
apply to any variant class that omits the overrides, and such a class is
perfectly valid: registering it succeeds like any other (no error is
raised for the omission). -/
theorem claim_C7_omitted_overrides_default_noop (dim : Nat)
    (cname name descr : String)
    (g : BoundaryId → MaterialInput dim → MaterialOutput dim → Tensor1 dim)
    (prm : ParameterHandler) (inst : Instance dim) (reg : Registry dim)
    (hcls : inst.cls = VariantClass.defaulted dim cname g)
    (hfresh : ∀ e ∈ reg, e.name ≠ name) :
    declareOptions (VariantClass.defaulted dim cname g).declares prm = prm
    ∧ Instance.parse_parameters inst prm = inst
    ∧ register_fluid_pressure_boundary name descr
        (VariantClass.defaulted dim cname g) reg
      = .ok (reg ++ [{ name := name, description := descr,
                       cls := VariantClass.defaulted dim cname g }]) := by
  refine ⟨?_, ?_, ?_⟩
  · cases prm
    simp [declareOptions, VariantClass.defaulted]
  · cases inst with
    | mk cls ps b =>
      simp only at hcls
      subst hcls
      simp [Instance.parse_parameters, VariantClass.defaulted]
  · have hok : reg.any (fun e => e.name == name) = false := by
      apply List.any_eq_false.mpr
      intro e he
      simpa using hfresh e he
    simp [register_fluid_pressure_boundary, hok]

/-- A fresh instance of the defaults-only sample class. -/
def w7inst : Instance 2 :=
  Entry.factory { name := "plain", description := "", cls := plainClass2 }

/-- Witness for C7 with the defaults-only sample class on an empty
catalog and an empty store. -/
theorem claim_C7_omitted_overrides_default_noop_witness :
    (w7inst.cls = VariantClass.defaulted 2 "PlainVariant" (gravityGradient 2)
      ∧ (∀ e ∈ ([] : Registry 2), e.name ≠ "plain"))
    ∧ (declareOptions
        (VariantClass.defaulted 2 "PlainVariant"
          (gravityGradient 2)).declares
        { declared := [], values := [] }
      = { declared := [], values := [] }
      ∧ Instance.parse_parameters w7inst { declared := [], values := [] }
        = w7inst
      ∧ register_fluid_pressure_boundary "plain" "no overrides"
          (VariantClass.defaulted 2 "PlainVariant" (gravityGradient 2))
          ([] : Registry 2)
        = .ok ([] ++ [{ name := "plain", description := "no overrides",
                        cls := VariantClass.defaulted 2 "PlainVariant"
                          (gravityGradient 2) }])) := by
  have hcls : w7inst.cls
      = VariantClass.defaulted 2 "PlainVariant" (gravityGradient 2) := rfl
  have hfresh : ∀ e ∈ ([] : Registry 2), e.name ≠ "plain" := by
    intro e he
    cases he
  exact ⟨⟨hcls, hfresh⟩,
    claim_C7_omitted_overrides_default_noop 2 "PlainVariant" "plain"
      "no overrides" (gravityGradient 2) { declared := [], values := [] }
      w7inst [] hcls hfresh⟩

/-- C9: one invocation of the registration macro on a class registers it
exactly twice — appending one entry to the dimensionality-2 catalog and one
to the dimensionality-3 catalog, with the same name and the same description
in both — and touches no other dimensionality (the registration state
consists of exactly these two catalogs); consequently, if all prior
registrations went through the macro (equal name columns), the name columns
of the two catalogs remain equal. -/
theorem claim_C9_macro_registers_twice_2d_and_3d
    (c2 : VariantClass 2) (c3 : VariantClass 3) (name descr : String)
    (s s' : Catalogs)
    (h : ASPECT_REGISTER_FLUID_PRESSURE_BOUNDARY_CONDITIONS c2 c3 name descr s
        = .ok s') :
    s'.reg2 = s.reg2 ++ [{ name := name, description := descr, cls := c2 }]
    ∧ s'.reg3 = s.reg3 ++ [{ name := name, description := descr, cls := c3 }]
    ∧ (s.reg2.map Entry.name = s.reg3.map Entry.name →
        s'.reg2.map Entry.name = s'.reg3.map Entry.name) := by
  unfold ASPECT_REGISTER_FLUID_PRESSURE_BOUNDARY_CONDITIONS at h
  cases h2 : register_fluid_pressure_boundary name descr c2 s.reg2 with
  | error msg => rw [h2] at h; cases h
  | ok r2 =>
    rw [h2] at h
    cases h3 : register_fluid_pressure_boundary name descr c3 s.reg3 with
    | error msg => rw [h3] at h; cases h
    | ok r3 =>
      rw [h3] at h
      injection h with h
      subst h
      have e2 := register_ok_eq name descr c2 s.reg2 r2 h2
      have e3 := register_ok_eq name descr c3 s.reg3 r3 h3
      refine ⟨e2, e3, ?_⟩
      intro heq
      simp [e2, e3, heq]

/-- The dimensionality-3 twin of `w3entry`, produced by the macro. -/
def w9entry3 : Entry 3 :=
  { name := "density", description := "a sample variant",
    cls := densityClass3 }

/-- The catalogs after one macro invocation on empty catalogs. -/
def w9cats : Catalogs :=
  { reg2 := [w3entry], reg3 := [w9entry3] }

/-- Witness for C9: the macro applied to the sample class on empty
catalogs. -/
theorem claim_C9_macro_registers_twice_2d_and_3d_witness :
    (ASPECT_REGISTER_FLUID_PRESSURE_BOUNDARY_CONDITIONS densityClass2
        densityClass3 "density" "a sample variant"
        { reg2 := [], reg3 := [] }
      = .ok w9cats)
    ∧ (w9cats.reg2 = ([] : Registry 2) ++ [w3entry]
      ∧ w9cats.reg3 = ([] : Registry 3) ++ [w9entry3]
      ∧ (([] : Registry 2).map Entry.name = ([] : Registry 3).map Entry.name →
          w9cats.reg2.map Entry.name = w9cats.reg3.map Entry.name)) := by
  have h : ASPECT_REGISTER_FLUID_PRESSURE_BOUNDARY_CONDITIONS densityClass2
      densityClass3 "density" "a sample variant" { reg2 := [], reg3 := [] }
      = .ok w9cats := rfl
  have hc := claim_C9_macro_registers_twice_2d_and_3d densityClass2
    densityClass3 "density" "a sample variant" { reg2 := [], reg3 := [] }
    w9cats h
  exact ⟨h, hc.1, hc.2.1, hc.2.2⟩
